import Mathlib

set_option maxHeartbeats 1000000

/-!
Verification of the delta-neutral basis-trade backtesting engine.

This file gives a shallow embedding, over `ℚ`, of the position simulators in
`scripts/lib/simulation.py` (conditional-deployment state machine, namespace
`Sim`) and `scripts/backtest_comparison.py` (capital-rebalance simulator with
venue-specific liquidation penalty models, namespace `Cmp`; the simulator in
`scripts/backtest_rebalance.py` is the `Cmp` one specialised to the
equity-fraction penalty model and a constant bridge cost).  Python floats are
modelled as rationals: every arithmetic identity proved here is exact, hence
holds in particular "within floating tolerance".  Python `dict.get(key, 0)`
rate lookups are modelled as `Option ℚ` with `Option.getD 0`.
-/

namespace Basisfeasibility

/-- GAS_COST: fixed cost per on-chain operation (same constant in all scripts). -/
def GAS_COST : ℚ := 2

namespace Sim

/-- Deployment state of the strategy state machine (`state` in the source). -/
inductive MachState
  | IDLE
  | DEPLOYED
deriving DecidableEq

/-- Reason recorded on a CLOSE event. -/
inductive CloseReason
  | apy
  | liq_proximity
deriving DecidableEq

/-- Events appended by `run_simulation` in `lib/simulation.py`.
Field order follows the dict literals in the source. -/
inductive Event
  | OPEN (date : ℕ) (price long_eq short_eq notional fees net_apy : ℚ)
  | CLOSE (date : ℕ) (reason : CloseReason) (price long_eq short_eq equity_after
      fees net_apy long_buffer short_buffer : ℚ)
deriving DecidableEq

/-- One entry of `daily_equity_log`. -/
structure EquityRec where
  date : ℕ
  equity : ℚ
  state : MachState
deriving DecidableEq

/-- One entry of `daily_apy_log`. -/
structure ApyRec where
  date : ℕ
  net_apy : ℚ
  net_apy_smooth : ℚ
deriving DecidableEq

/-- One trading day of market data, as consumed by the day loop: the close
price (`price_by_date[date]["close"]`) and the three optional rate lookups
(`sol_by_date`, `usdc_by_date`, `funding_data`); a missing date in a rate
dict is `none`. -/
structure Day where
  date : ℕ
  close : ℚ
  lend : Option ℚ
  borrow : Option ℚ
  funding : Option ℚ
deriving DecidableEq

/-- Parameters of `run_simulation` together with the venue fields it reads
(`fee_bps`, `maintenance_margin`). -/
structure SimParams where
  initial_capital : ℚ
  target_leverage : ℚ
  fee_bps : ℚ
  maintenance_margin : ℚ
  apy_threshold : ℚ
  liq_buffer_pct : ℚ
  lookback_days : ℕ
  asgard_fee_bps : ℚ
deriving DecidableEq

/-- Mutable state of the day loop: machine state, cash, the five position
variables, the running totals and the append-only logs.  `long_eq` and
`short_eq` model the Python local variables of the same names, which persist
across loop iterations and are read by the final-close block. -/
structure SimState where
  machine : MachState
  cash : ℚ
  sol_qty : ℚ
  usdc_debt : ℚ
  short_contracts : ℚ
  short_entry : ℚ
  short_margin : ℚ
  total_fees : ℚ
  total_carry : ℚ
  total_funding : ℚ
  opens : ℕ
  closes : ℕ
  close_apy_count : ℕ
  close_liq_count : ℕ
  deployed_days : ℕ
  idle_days : ℕ
  long_eq : ℚ
  short_eq : ℚ
  events : List Event
  daily_equity : List EquityRec
  daily_apy : List ApyRec
deriving DecidableEq

/-- compute_net_apy: instantaneous net APY on total capital (percent). -/
def compute_net_apy (sol_lend_apy usdc_borr_apy funding_daily leverage : ℚ) : ℚ :=
  leverage / 2 * (sol_lend_apy + funding_daily * 365 * 100)
    - (leverage - 1) / 2 * usdc_borr_apy

/-- Pre-computed daily net APY for the full period (lines 89-94). -/
def raw_apys (days : List Day) (leverage : ℚ) : List ℚ :=
  days.map fun d =>
    compute_net_apy (d.lend.getD 0) (d.borrow.getD 0) (d.funding.getD 0) leverage

/-- Rolling average of the raw APY signal (lines 97-100).
`i + 1 - lookback` is the ℕ truncated subtraction, which equals Python's
`max(0, i - lookback_days + 1)`. -/
def smoothed_apys (raw : List ℚ) (lookback : ℕ) : List ℚ :=
  (List.range raw.length).map fun i =>
    let ws := i + 1 - lookback
    ((raw.drop ws).take (i + 1 - ws)).sum / ((i - ws + 1 : ℕ) : ℚ)

/-- Initial loop state (lines 102-124). -/
def init_state (pr : SimParams) : SimState :=
  { machine := .IDLE
    cash := pr.initial_capital
    sol_qty := 0
    usdc_debt := 0
    short_contracts := 0
    short_entry := 0
    short_margin := 0
    total_fees := 0
    total_carry := 0
    total_funding := 0
    opens := 0
    closes := 0
    close_apy_count := 0
    close_liq_count := 0
    deployed_days := 0
    idle_days := 0
    long_eq := 0
    short_eq := 0
    events := []
    daily_equity := []
    daily_apy := [] }

/-- OPEN both legs (lines 141-178): split capital 50/50, size both legs from
`notional / price`, charge opening fees half to debt and half to margin. -/
def open_branch (pr : SimParams) (s : SimState) (d : Day) (net_apy : ℚ) : SimState :=
  let half := s.cash / 2
  let notional := half * pr.target_leverage
  let sol_qty := notional / d.close
  let usdc_debt := half * (pr.target_leverage - 1)
  let short_contracts := notional / d.close
  let short_entry := d.close
  let short_margin := half
  let open_fees := notional * pr.asgard_fee_bps / 10000
    + notional * pr.fee_bps / 10000 + GAS_COST
  let usdc_debt := usdc_debt + open_fees / 2
  let short_margin := short_margin - open_fees / 2
  let long_eq := sol_qty * d.close - usdc_debt
  let short_eq := short_margin
  let total_eq := long_eq + short_eq
  { s with
    machine := .DEPLOYED
    sol_qty := sol_qty
    usdc_debt := usdc_debt
    short_contracts := short_contracts
    short_entry := short_entry
    short_margin := short_margin
    total_fees := s.total_fees + open_fees
    opens := s.opens + 1
    long_eq := long_eq
    short_eq := short_eq
    events := s.events ++
      [Event.OPEN d.date d.close long_eq short_eq notional open_fees net_apy]
    daily_equity := s.daily_equity ++ [⟨d.date, total_eq, .DEPLOYED⟩]
    deployed_days := s.deployed_days + 1 }

/-- IDLE day without an open (lines 179-183): cash carries forward unchanged. -/
def idle_hold_branch (s : SimState) (d : Day) : SimState :=
  { s with
    daily_equity := s.daily_equity ++ [⟨d.date, s.cash, .IDLE⟩]
    idle_days := s.idle_days + 1 }

/-- DEPLOYED day (lines 185-268): accrue yields, derive equity, check the
liquidation-proximity buffers and the APY signal, then either close both legs
or carry the position. -/
def deployed_branch (pr : SimParams) (s : SimState) (d : Day) (net_apy : ℚ) : SimState :=
  let sol_lend_daily := (d.lend.getD 0 / 100) / 365
  let usdc_borr_daily := (d.borrow.getD 0 / 100) / 365
  let funding_daily := d.funding.getD 0
  let sol_earned := s.sol_qty * sol_lend_daily
  let debt_increase := s.usdc_debt * usdc_borr_daily
  let carry := sol_earned * d.close - debt_increase
  let sol_qty := s.sol_qty + sol_earned
  let usdc_debt := s.usdc_debt + debt_increase
  let fund_income := funding_daily * s.short_contracts * d.close
  let short_margin := s.short_margin + fund_income
  let long_eq := sol_qty * d.close - usdc_debt
  let short_eq := short_margin + s.short_contracts * (s.short_entry - d.close)
  let liq_price_long := usdc_debt / (sol_qty * (1 - pr.maintenance_margin))
  let liq_price_short := (short_margin + s.short_contracts * s.short_entry)
    / (s.short_contracts * (1 + pr.maintenance_margin))
  let long_buffer := (d.close - liq_price_long) / d.close * 100
  let short_buffer := (liq_price_short - d.close) / d.close * 100
  let near_liq := long_buffer ≤ pr.liq_buffer_pct ∨ short_buffer ≤ pr.liq_buffer_pct
  let apy_below := net_apy < pr.apy_threshold
  if near_liq ∨ apy_below then
    let close_fee := s.short_contracts * d.close * pr.fee_bps / 10000 + GAS_COST
    let total_eq := long_eq + short_eq - close_fee
    let reason := if near_liq then CloseReason.liq_proximity else CloseReason.apy
    { s with
      machine := .IDLE
      cash := total_eq
      sol_qty := 0
      usdc_debt := 0
      short_contracts := 0
      short_entry := 0
      short_margin := 0
      total_fees := s.total_fees + close_fee
      total_carry := s.total_carry + carry
      total_funding := s.total_funding + fund_income
      closes := s.closes + 1
      close_apy_count := if near_liq then s.close_apy_count else s.close_apy_count + 1
      close_liq_count := if near_liq then s.close_liq_count + 1 else s.close_liq_count
      long_eq := long_eq
      short_eq := short_eq
      events := s.events ++
        [Event.CLOSE d.date reason d.close long_eq short_eq total_eq close_fee
          net_apy long_buffer short_buffer]
      daily_equity := s.daily_equity ++ [⟨d.date, total_eq, .IDLE⟩]
      idle_days := s.idle_days + 1 }
  else
    { s with
      sol_qty := sol_qty
      usdc_debt := usdc_debt
      short_margin := short_margin
      total_carry := s.total_carry + carry
      total_funding := s.total_funding + fund_income
      long_eq := long_eq
      short_eq := short_eq
      daily_equity := s.daily_equity ++ [⟨d.date, long_eq + short_eq, .DEPLOYED⟩]
      deployed_days := s.deployed_days + 1 }

/-- One iteration of the day loop (lines 126-268).  `net_apy_raw` is the
day's raw signal, `net_apy` the smoothed one used for decisions. -/
def sim_day_step (pr : SimParams) (s : SimState) (d : Day)
    (net_apy_raw net_apy : ℚ) : SimState :=
  let s := { s with daily_apy := s.daily_apy ++ [⟨d.date, net_apy_raw, net_apy⟩] }
  if s.machine = MachState.IDLE then
    if net_apy > pr.apy_threshold then open_branch pr s d net_apy
    else idle_hold_branch s d
  else
    deployed_branch pr s d net_apy

/-- The day loop over the aligned date range. -/
def sim_loop (pr : SimParams) : SimState → List (Day × ℚ × ℚ) → SimState
  | s, [] => s
  | s, (d, raw, sm) :: rest => sim_loop pr (sim_day_step pr s d raw sm) rest

/-- One fold step of the max-drawdown computation (lines 283-289): the pair is
`(peak, max_dd)`. -/
def dd_step (pm : ℚ × ℚ) (e : ℚ) : ℚ × ℚ :=
  let peak := max pm.1 e
  (peak, max pm.2 ((peak - e) / peak))

/-- Max drawdown of an equity series, starting from `peak = initial_capital`
and `max_dd = 0` (lines 283-289). -/
def maxDrawdown (initial : ℚ) (log : List ℚ) : ℚ :=
  (log.foldl dd_step (initial, 0)).2

/-- Close price of the last date (`price_by_date[all_dates[-1]]["close"]`). -/
def final_price (days : List Day) : ℚ :=
  ((days.getLast?).map Day.close).getD 0

/-- State of the loop after the whole date range. -/
def final_sim_state (pr : SimParams) (days : List Day) : SimState :=
  let raw := raw_apys days pr.target_leverage
  let sm := smoothed_apys raw pr.lookback_days
  sim_loop pr (init_state pr) (days.zip (raw.zip sm))

/-- Result record returned by `run_simulation` (venue name omitted). -/
structure SimResult where
  initial : ℚ
  leverage : ℚ
  final : ℚ
  return_pct : ℚ
  ann_return : ℚ
  total_fees : ℚ
  carry : ℚ
  funding : ℚ
  gross : ℚ
  opens : ℕ
  closes : ℕ
  close_apy_count : ℕ
  close_liq_count : ℕ
  deployed_days : ℕ
  idle_days : ℕ
  deployed_pct : ℚ
  max_dd_pct : ℚ
  events : List Event
  daily_equity : List EquityRec
  daily_apy : List ApyRec
deriving DecidableEq

/-- run_simulation of `lib/simulation.py`: run the day loop, close the short
leg at the final price if still deployed (lines 270-277), and aggregate the
metrics. -/
def run_simulation (pr : SimParams) (days : List Day) : SimResult :=
  let sF := final_sim_state pr days
  let close_fee := sF.short_contracts * final_price days * pr.fee_bps / 10000
  let final_capital :=
    if sF.machine = MachState.DEPLOYED then sF.long_eq + sF.short_eq - close_fee
    else sF.cash
  let total_fees :=
    if sF.machine = MachState.DEPLOYED then sF.total_fees + close_fee
    else sF.total_fees
  let total_return := final_capital - pr.initial_capital
  let n_days : ℚ := (days.length : ℚ)
  let max_dd := maxDrawdown pr.initial_capital (sF.daily_equity.map fun r => r.equity)
  { initial := pr.initial_capital
    leverage := pr.target_leverage
    final := final_capital
    return_pct := total_return / pr.initial_capital * 100
    ann_return := total_return / pr.initial_capital * (365 / n_days) * 100
    total_fees := total_fees
    carry := sF.total_carry
    funding := sF.total_funding
    gross := sF.total_carry + sF.total_funding
    opens := sF.opens
    closes := sF.closes
    close_apy_count := sF.close_apy_count
    close_liq_count := sF.close_liq_count
    deployed_days := sF.deployed_days
    idle_days := sF.idle_days
    deployed_pct := if (0 : ℚ) < n_days then (sF.deployed_days : ℚ) / n_days * 100 else 0
    max_dd_pct := max_dd * 100
    events := sF.events
    daily_equity := sF.daily_equity
    daily_apy := sF.daily_apy }

/-- Extract the `fees` field of an event. -/
def event_fees : Event → ℚ
  | .OPEN _ _ _ _ _ f _ => f
  | .CLOSE _ _ _ _ _ _ f _ _ _ => f

/-- Replace an absent rate by an explicit zero rate; `run_simulation` treats
both identically because each lookup is `dict.get(date, 0)`-style. -/
def zero_fill (d : Day) : Day :=
  { d with
    lend := some (d.lend.getD 0)
    borrow := some (d.borrow.getD 0)
    funding := some (d.funding.getD 0) }

/-- Opening fees charged at an OPEN from cash `c` (lines 151-155):
origination fee and venue taker fee on the `(c/2) × L` notional, plus the
fixed gas cost. -/
def open_fees_amount (pr : SimParams) (c : ℚ) : ℚ :=
  c / 2 * pr.target_leverage * pr.asgard_fee_bps / 10000
    + c / 2 * pr.target_leverage * pr.fee_bps / 10000 + GAS_COST

/-- Relation between consecutive daily-equity records: two adjacent IDLE
records carry the same equity. -/
def idle_adj (a b : EquityRec) : Prop :=
  a.state = MachState.IDLE → b.state = MachState.IDLE → a.equity = b.equity

/-- Loop invariant: the log satisfies `idle_adj` pairwise; an IDLE record at
the tail means the machine is IDLE and the cash equals that record's equity;
a DEPLOYED machine means the tail record is the current derived equity. -/
def sim_inv (s : SimState) : Prop :=
  List.Chain' idle_adj s.daily_equity
  ∧ (∀ r, s.daily_equity.getLast? = some r → r.state = MachState.IDLE →
      s.machine = MachState.IDLE ∧ s.cash = r.equity)
  ∧ (s.machine = MachState.DEPLOYED →
      ∃ r, s.daily_equity.getLast? = some r
        ∧ r.equity = s.long_eq + s.short_eq ∧ r.state = MachState.DEPLOYED)

/-- Test parameters: the deterministic scenario of §8 of the spec
(capital $10,000, leverage 3, venue fee 3.5 bps, maintenance margin 5%,
opening fee 15 bps). -/
def prA : SimParams :=
  { initial_capital := 10000
    target_leverage := 3
    fee_bps := 7/2
    maintenance_margin := 1/20
    apy_threshold := 10
    liq_buffer_pct := 10
    lookback_days := 7
    asgard_fee_bps := 15 }

/-- Day 1 of the scenario: price $100, lend 10%, borrow 5%, funding 0.0001. -/
def dayA : Day := ⟨0, 100, some 10, some 5, some (1/10000)⟩

/-- Day 2 of the scenario: flat price $100, same rates. -/
def dayA2 : Day := ⟨1, 100, some 10, some 5, some (1/10000)⟩

/-- A day whose date is missing from all three rate lookups. -/
def dayMissing : Day := ⟨1, 100, none, none, none⟩

/-- The same day with explicit zero rates. -/
def dayZero : Day := ⟨1, 100, some 0, some 0, some 0⟩

/-- An invalid configuration: negative capital and leverage below 1.  The
source performs no validation of either. -/
def prC3 : SimParams :=
  { initial_capital := -100
    target_leverage := 1/2
    fee_bps := 7/2
    maintenance_margin := 1/20
    apy_threshold := 10
    liq_buffer_pct := 10
    lookback_days := 7
    asgard_fee_bps := 15 }

/-- Two dull days (no rates): the net-APY signal is 0, below threshold. -/
def dayZ0 : Day := ⟨0, 100, none, none, none⟩

/-- Second dull day. -/
def dayZ1 : Day := ⟨1, 100, none, none, none⟩

end Sim

namespace Cmp

/-- Venue liquidation penalty model tag (`liq_penalty_model` in the source):
a fraction of remaining equity or a fraction of position notional. -/
inductive PenaltyModel
  | equity
  | notional
deriving DecidableEq

/-- Which leg(s) breached the maintenance margin. -/
inductive Leg
  | LONG
  | SHORT
  | BOTH
deriving DecidableEq

/-- Venue configuration of `backtest_comparison.py` (funding lookup lives in
the per-day data). -/
structure Venue where
  fee_bps : ℚ
  maintenance_margin : ℚ
  model : PenaltyModel
  liq_penalty_pct : ℚ
  bridge_cost : ℚ
deriving DecidableEq

/-- Run parameters of `run_simulation` in `backtest_comparison.py`. -/
structure CmpParams where
  initial_capital : ℚ
  target_leverage : ℚ
  asgard_fee_bps : ℚ
deriving DecidableEq

/-- One trading day of market data for the rebalance simulators: OHLC close,
high, low, and the three optional rate lookups. -/
structure CmpDay where
  date : ℕ
  close : ℚ
  high : ℚ
  low : ℚ
  lend : Option ℚ
  borrow : Option ℚ
  funding : Option ℚ
deriving DecidableEq

/-- Events appended by the rebalance/comparison simulators. -/
inductive CmpEvent
  | OPEN (date : ℕ) (price long_eq short_eq notional fees : ℚ)
  | LIQUIDATION (date : ℕ) (leg : Leg) (price penalty long_eq short_eq : ℚ)
  | REOPEN_AFTER_LIQ (date : ℕ) (price long_eq short_eq notional fees : ℚ)
  | CAPITAL_REBALANCE (date : ℕ) (price transfer long_eq short_eq
      eff_lev_before fee : ℚ)
deriving DecidableEq

/-- One entry of `daily_equity_log` (no deployment state in these scripts). -/
structure CmpEquityRec where
  date : ℕ
  equity : ℚ
deriving DecidableEq

/-- Loop state of the rebalance/comparison simulators.  `long_eq`/`short_eq`
model the Python locals of the same names, which persist across iterations. -/
structure CmpState where
  sol_qty : ℚ
  usdc_debt : ℚ
  short_contracts : ℚ
  short_entry : ℚ
  short_margin : ℚ
  total_fees : ℚ
  total_carry : ℚ
  total_funding : ℚ
  total_liq_penalty : ℚ
  total_bridge_costs : ℚ
  capital_rebalances : ℕ
  full_rotations : ℕ
  liquidations : ℕ
  long_eq : ℚ
  short_eq : ℚ
  events : List CmpEvent
  daily_equity_log : List CmpEquityRec
deriving DecidableEq

/-- Open both positions before the day loop (lines 113-159): split capital
50/50, size both legs as `notional / p0`, charge opening fees half by
increasing debt and half by decreasing margin, and emit the OPEN event. -/
def cmp_open (pr : CmpParams) (v : Venue) (date0 : ℕ) (p0 : ℚ) : CmpState :=
  let half := pr.initial_capital / 2
  let notional := half * pr.target_leverage
  let sol_qty := notional / p0
  let usdc_debt := half * (pr.target_leverage - 1)
  let short_contracts := notional / p0
  let short_entry := p0
  let short_margin := half
  let open_fees := notional * pr.asgard_fee_bps / 10000
    + notional * v.fee_bps / 10000 + GAS_COST
  let usdc_debt := usdc_debt + open_fees / 2
  let short_margin := short_margin - open_fees / 2
  let long_eq := sol_qty * p0 - usdc_debt
  let short_eq := short_margin
  { sol_qty := sol_qty
    usdc_debt := usdc_debt
    short_contracts := short_contracts
    short_entry := short_entry
    short_margin := short_margin
    total_fees := open_fees
    total_carry := 0
    total_funding := 0
    total_liq_penalty := 0
    total_bridge_costs := 0
    capital_rebalances := 0
    full_rotations := 0
    liquidations := 0
    long_eq := long_eq
    short_eq := short_eq
    events := [CmpEvent.OPEN date0 p0 long_eq short_eq notional open_fees]
    daily_equity_log := [] }

/-- Default rebalance trigger resolution (lines 137-138): non-positive means
`2 × target leverage`. -/
def resolve_trigger (rebalance_lev_trigger target_leverage : ℚ) : ℚ :=
  if rebalance_lev_trigger ≤ 0 then target_leverage * 2 else rebalance_lev_trigger

/-- Daily yield accrual (lines 168-184): lending yield compounds into
`sol_qty`, borrow interest compounds into `usdc_debt`, funding settles into
`short_margin`; carry and funding totals are tallied. -/
def accrue (s : CmpState) (d : CmpDay) : CmpState :=
  let sol_lend := (d.lend.getD 0 / 100) / 365
  let usdc_borr := (d.borrow.getD 0 / 100) / 365
  let funding := d.funding.getD 0
  let sol_earned := s.sol_qty * sol_lend
  let debt_increase := s.usdc_debt * usdc_borr
  let carry := sol_earned * d.close - debt_increase
  let fund_income := funding * s.short_contracts * d.close
  { s with
    sol_qty := s.sol_qty + sol_earned
    usdc_debt := s.usdc_debt + debt_increase
    short_margin := s.short_margin + fund_income
    total_carry := s.total_carry + carry
    total_funding := s.total_funding + fund_income }

/-- Derive current equity from state at the day's close (lines 186-189). -/
def derive_equity (s : CmpState) (d : CmpDay) : CmpState :=
  { s with
    long_eq := s.sol_qty * d.close - s.usdc_debt
    short_eq := s.short_margin + s.short_contracts * (s.short_entry - d.close) }

/-- Intraday liquidation check (lines 191-206): long leg at the day's low,
short leg at the day's high. -/
def liq_check (v : Venue) (s : CmpState) (d : CmpDay) : Option Leg :=
  let long_eq_at_low := s.sol_qty * d.low - s.usdc_debt
  let long_notional_at_low := s.sol_qty * d.low
  let short_eq_at_high := s.short_margin + s.short_contracts * (s.short_entry - d.high)
  let short_notional_at_high := s.short_contracts * d.high
  if long_eq_at_low ≤ long_notional_at_low * v.maintenance_margin then
    if short_eq_at_high ≤ short_notional_at_high * v.maintenance_margin then
      some Leg.BOTH
    else some Leg.LONG
  else if short_eq_at_high ≤ short_notional_at_high * v.maintenance_margin then
    some Leg.SHORT
  else none

/-- Equity-fraction penalty on one leg (lines 213-220): returns the penalty
and the post-penalty equity, both clamped at zero. -/
def applyEquityPenalty (pct eq : ℚ) : ℚ × ℚ :=
  (max (eq * pct) 0, max (eq * (1 - pct)) 0)

/-- Notional-fraction penalty on one leg (lines 221-234): the penalty is a
fraction of position notional, capped at `max eq 0` ("can't lose more than
equity"); the post-penalty equity is clamped at zero. -/
def applyNotionalPenalty (pct notional eq : ℚ) : ℚ × ℚ :=
  let penalty := min (notional * pct) (max eq 0)
  (penalty, max (eq - penalty) 0)

/-- Apply the venue's liquidation penalty model to the breached leg(s)
(lines 208-242) and emit the LIQUIDATION event. -/
def apply_liq_penalty (v : Venue) (s : CmpState) (d : CmpDay) (leg : Leg) : CmpState :=
  let hitLong := leg = Leg.LONG ∨ leg = Leg.BOTH
  let hitShort := leg = Leg.SHORT ∨ leg = Leg.BOTH
  let pL :=
    match v.model with
    | PenaltyModel.equity =>
        if hitLong then applyEquityPenalty v.liq_penalty_pct s.long_eq
        else (0, s.long_eq)
    | PenaltyModel.notional =>
        if hitLong then
          applyNotionalPenalty v.liq_penalty_pct (s.sol_qty * d.close) s.long_eq
        else (0, s.long_eq)
  let pS :=
    match v.model with
    | PenaltyModel.equity =>
        if hitShort then applyEquityPenalty v.liq_penalty_pct s.short_eq
        else (0, s.short_eq)
    | PenaltyModel.notional =>
        if hitShort then
          applyNotionalPenalty v.liq_penalty_pct (s.short_contracts * d.close) s.short_eq
        else (0, s.short_eq)
  let liq_penalty := pL.1 + pS.1
  { s with
    liquidations := s.liquidations + 1
    long_eq := pL.2
    short_eq := pS.2
    total_liq_penalty := s.total_liq_penalty + liq_penalty
    events := s.events ++
      [CmpEvent.LIQUIDATION d.date leg d.close liq_penalty pL.2 pS.2] }

/-- Full close and reopen after a liquidation (lines 244-275): pool the
post-penalty equity, charge full reopen fees, and resize both legs at the
day's close at target leverage. -/
def reopen (pr : CmpParams) (v : Venue) (s : CmpState) (d : CmpDay) : CmpState :=
  let total_eq := s.long_eq + s.short_eq
  let old_short_notional := s.short_contracts * d.close
  let new_half := total_eq / 2
  let new_notional := new_half * pr.target_leverage
  let reopen_fees := new_notional * pr.asgard_fee_bps / 10000
    + new_notional * v.fee_bps / 10000
    + old_short_notional * v.fee_bps / 10000
    + GAS_COST
  let total_eq := total_eq - reopen_fees
  let new_half := total_eq / 2
  let sol_qty := new_half * pr.target_leverage / d.close
  let usdc_debt := new_half * (pr.target_leverage - 1)
  let short_contracts := new_half * pr.target_leverage / d.close
  let short_entry := d.close
  let short_margin := new_half
  let long_eq := sol_qty * d.close - usdc_debt
  let short_eq := short_margin
  { s with
    sol_qty := sol_qty
    usdc_debt := usdc_debt
    short_contracts := short_contracts
    short_entry := short_entry
    short_margin := short_margin
    total_fees := s.total_fees + reopen_fees
    full_rotations := s.full_rotations + 1
    long_eq := long_eq
    short_eq := short_eq
    events := s.events ++
      [CmpEvent.REOPEN_AFTER_LIQ d.date d.close long_eq short_eq
        (new_half * pr.target_leverage) reopen_fees] }

/-- Effective leverage of a leg (lines 279 and 281): `notional / max(eq, 1)`
when the equity is positive, else the sentinel 999. -/
def eff_lev (notional eq : ℚ) : ℚ :=
  if eq > 0 then notional / max eq 1 else 999

/-- Capital rebalance branch (lines 277-313): when either leg's effective
leverage exceeds the trigger and the required transfer exceeds $5, move
capital between the legs by adjusting only `usdc_debt` and `short_margin`,
charge the bridge fee half to each leg, and emit the event; otherwise leave
the state untouched. -/
def rebalance_branch (v : Venue) (trigger : ℚ) (s : CmpState) (d : CmpDay) : CmpState :=
  let long_notional_now := s.sol_qty * d.close
  let eff_lev_long := eff_lev long_notional_now s.long_eq
  let short_notional_now := s.short_contracts * d.close
  let eff_lev_short := eff_lev short_notional_now s.short_eq
  if eff_lev_long > trigger ∨ eff_lev_short > trigger then
    let total_eq := s.long_eq + s.short_eq
    let target_eq := total_eq / 2
    let transfer := |s.long_eq - target_eq|
    if transfer > 5 then
      let s2 :=
        if s.long_eq < target_eq then
          let add := target_eq - s.long_eq
          { s with usdc_debt := s.usdc_debt - add, short_margin := s.short_margin - add }
        else
          let add := target_eq - s.short_eq
          { s with usdc_debt := s.usdc_debt + add, short_margin := s.short_margin + add }
      let s3 :=
        { s2 with
          usdc_debt := s2.usdc_debt + v.bridge_cost / 2
          short_margin := s2.short_margin - v.bridge_cost / 2
          total_fees := s2.total_fees + v.bridge_cost
          total_bridge_costs := s2.total_bridge_costs + v.bridge_cost
          capital_rebalances := s2.capital_rebalances + 1 }
      let long_eq := s3.sol_qty * d.close - s3.usdc_debt
      let short_eq := s3.short_margin + s3.short_contracts * (s3.short_entry - d.close)
      { s3 with
        long_eq := long_eq
        short_eq := short_eq
        events := s3.events ++
          [CmpEvent.CAPITAL_REBALANCE d.date d.close transfer long_eq short_eq
            (max eff_lev_long eff_lev_short) v.bridge_cost] }
    else s
  else s

/-- One iteration of the day loop (lines 162-316): accrue, derive equity,
then either resolve a liquidation (penalty + full reopen) or check the
capital-rebalance trigger, and append the daily equity record. -/
def cmp_day_step (pr : CmpParams) (v : Venue) (trigger : ℚ)
    (s : CmpState) (d : CmpDay) : CmpState :=
  let s1 := derive_equity (accrue s d) d
  let s2 :=
    match liq_check v s1 d with
    | some leg => reopen pr v (apply_liq_penalty v s1 d leg) d
    | none => rebalance_branch v trigger s1 d
  { s2 with
    daily_equity_log := s2.daily_equity_log ++ [⟨d.date, s2.long_eq + s2.short_eq⟩] }

/-- The day loop of the rebalance/comparison simulators. -/
def cmp_loop (pr : CmpParams) (v : Venue) (trigger : ℚ) :
    CmpState → List CmpDay → CmpState
  | s, [] => s
  | s, d :: rest => cmp_loop pr v trigger (cmp_day_step pr v trigger s d) rest

/-- VENUE_DRIFT of `backtest_comparison.py`: fee 3.5 bps, maintenance margin
3%, notional-fraction penalty of 2.5%, bridge cost $0.001. -/
def VENUE_DRIFT : Venue := ⟨7/2, 3/100, PenaltyModel.notional, 1/40, 1/1000⟩

/-- VENUE_HL of `backtest_comparison.py`: fee 3.5 bps, maintenance margin 5%,
equity-fraction penalty of 50%, bridge cost $3. -/
def VENUE_HL : Venue := ⟨7/2, 1/20, PenaltyModel.equity, 1/2, 3⟩

/-- Test parameters: capital $10,000, leverage 3, opening fee 15 bps. -/
def cmpPr : CmpParams := ⟨10000, 3, 15⟩

/-- Day 0: flat at the $100 entry price, no rates. -/
def cmpDay0 : CmpDay := ⟨0, 100, 100, 100, none, none, none⟩

/-- Day 1: crash to $60 (low $60, high $100), no rates.  The long leg
breaches its maintenance margin and its close-price equity is negative. -/
def cmpDay1 : CmpDay := ⟨1, 60, 100, 60, none, none, none⟩

/-- State after day 0 of the crash scenario on Drift. -/
def crashS1 : CmpState :=
  cmp_day_step cmpPr VENUE_DRIFT 6 (cmp_open cmpPr VENUE_DRIFT 0 100) cmpDay0

/-- State on day 1 of the crash scenario, after accrual and equity
derivation, at the moment the liquidation check runs. -/
def crashPre : CmpState := derive_equity (accrue crashS1 cmpDay1) cmpDay1

/-- Test state for the capital-rebalance theorem: the long leg has bled down
to $1,000 of equity against a $15,000 notional (effective leverage 15). -/
def sW : CmpState :=
  { sol_qty := 150
    usdc_debt := 14000
    short_contracts := 150
    short_entry := 100
    short_margin := 4000
    total_fees := 0
    total_carry := 0
    total_funding := 0
    total_liq_penalty := 0
    total_bridge_costs := 0
    capital_rebalances := 0
    full_rotations := 0
    liquidations := 0
    long_eq := 1000
    short_eq := 4000
    events := []
    daily_equity_log := [] }

/-- Test day for the capital-rebalance theorem: flat at $100. -/
def dW : CmpDay := ⟨5, 100, 100, 100, none, none, none⟩

/-- Balanced test state: both legs at $1,000 equity, so the required
transfer is $0 and a rebalance is skipped. -/
def sB : CmpState :=
  { sol_qty := 150
    usdc_debt := 14000
    short_contracts := 150
    short_entry := 100
    short_margin := 1000
    total_fees := 0
    total_carry := 0
    total_funding := 0
    total_liq_penalty := 0
    total_bridge_costs := 0
    capital_rebalances := 0
    full_rotations := 0
    liquidations := 0
    long_eq := 1000
    short_eq := 1000
    events := []
    daily_equity_log := [] }

end Cmp

namespace Sim

theorem machState_ctor_ne1 : (MachState.DEPLOYED = MachState.IDLE) = False := by
  simp

theorem machState_ctor_ne2 : (MachState.IDLE = MachState.DEPLOYED) = False := by
  simp

theorem dd_snd_le : ∀ (l : List ℚ) (p m : ℚ), m ≤ (l.foldl dd_step (p, m)).2
  | [], _, m => le_refl m
  | e :: rest, p, m =>
    le_trans (le_max_left m ((max p e - e) / max p e))
      (dd_snd_le rest (max p e) (max m ((max p e - e) / max p e)))

/-- C1: immediately after an OPEN with cash `C`, leverage `L > 1` and entry
price `p > 0`: `sol_qty = short_contracts = (C/2 × L) / p`, the debt is the
borrowed `C/2 × (L−1)` plus half the opening fees, the margin is `C/2` minus
half the opening fees, and the two legs' equities sum to exactly
`C − open_fees`. -/
theorem open_splits_capital (pr : SimParams) (s : SimState) (d : Day) (raw sm : ℚ)
    (hI : s.machine = MachState.IDLE) (hA : sm > pr.apy_threshold)
    (hC : 0 < s.cash) (hL : 1 < pr.target_leverage) (hp : 0 < d.close) :
    (sim_day_step pr s d raw sm).sol_qty = s.cash / 2 * pr.target_leverage / d.close
    ∧ (sim_day_step pr s d raw sm).short_contracts
        = s.cash / 2 * pr.target_leverage / d.close
    ∧ (sim_day_step pr s d raw sm).usdc_debt
        = s.cash / 2 * (pr.target_leverage - 1) + open_fees_amount pr s.cash / 2
    ∧ (sim_day_step pr s d raw sm).short_margin
        = s.cash / 2 - open_fees_amount pr s.cash / 2
    ∧ (sim_day_step pr s d raw sm).long_eq + (sim_day_step pr s d raw sm).short_eq
        = s.cash - open_fees_amount pr s.cash := by
  have hne : d.close ≠ 0 := ne_of_gt hp
  unfold sim_day_step
  dsimp only
  rw [if_pos hI, if_pos hA]
  unfold open_branch
  dsimp only
  refine ⟨rfl, rfl, rfl, rfl, ?_⟩
  rw [div_mul_cancel₀ _ hne]
  unfold open_fees_amount
  ring

/-- Witness for the C1 theorem: the scenario parameters at the initial
state, on a day whose smoothed signal is 15.475%. -/
theorem open_splits_capital_witness :
    ((init_state prA).machine = MachState.IDLE ∧ (619:ℚ)/40 > prA.apy_threshold
      ∧ 0 < (init_state prA).cash ∧ 1 < prA.target_leverage ∧ 0 < dayA.close)
    ∧ ((sim_day_step prA (init_state prA) dayA (619/40) (619/40)).sol_qty
          = (init_state prA).cash / 2 * prA.target_leverage / dayA.close
      ∧ (sim_day_step prA (init_state prA) dayA (619/40) (619/40)).short_contracts
          = (init_state prA).cash / 2 * prA.target_leverage / dayA.close
      ∧ (sim_day_step prA (init_state prA) dayA (619/40) (619/40)).usdc_debt
          = (init_state prA).cash / 2 * (prA.target_leverage - 1)
            + open_fees_amount prA (init_state prA).cash / 2
      ∧ (sim_day_step prA (init_state prA) dayA (619/40) (619/40)).short_margin
          = (init_state prA).cash / 2 - open_fees_amount prA (init_state prA).cash / 2
      ∧ (sim_day_step prA (init_state prA) dayA (619/40) (619/40)).long_eq
            + (sim_day_step prA (init_state prA) dayA (619/40) (619/40)).short_eq
          = (init_state prA).cash - open_fees_amount prA (init_state prA).cash) :=
  ⟨⟨rfl, by norm_num [prA], by norm_num [init_state, prA], by norm_num [prA],
     by norm_num [dayA]⟩,
   open_splits_capital prA (init_state prA) dayA (619/40) (619/40) rfl
     (by norm_num [prA]) (by norm_num [init_state, prA]) (by norm_num [prA])
     (by norm_num [dayA])⟩

/-- C9: on the day of an IDLE → DEPLOYED transition no accrual is performed
(carry and funding totals are unchanged), no close/liquidation-proximity
path runs (the close counter is unchanged and the only appended event is the
OPEN), the day's logged equity is exactly `cash − open_fees`, and the
machine is DEPLOYED afterwards, so accrual and risk checks begin the
following day. -/
theorem open_day_no_accrual (pr : SimParams) (s : SimState) (d : Day) (raw sm : ℚ)
    (hI : s.machine = MachState.IDLE) (hA : sm > pr.apy_threshold) (hp : 0 < d.close) :
    (sim_day_step pr s d raw sm).total_carry = s.total_carry
    ∧ (sim_day_step pr s d raw sm).total_funding = s.total_funding
    ∧ (sim_day_step pr s d raw sm).machine = MachState.DEPLOYED
    ∧ (sim_day_step pr s d raw sm).closes = s.closes
    ∧ (sim_day_step pr s d raw sm).daily_equity
        = s.daily_equity
          ++ [⟨d.date, s.cash - open_fees_amount pr s.cash, MachState.DEPLOYED⟩]
    ∧ (sim_day_step pr s d raw sm).events
        = s.events ++ [Event.OPEN d.date d.close (sim_day_step pr s d raw sm).long_eq
            (sim_day_step pr s d raw sm).short_eq (s.cash / 2 * pr.target_leverage)
            (open_fees_amount pr s.cash) sm] := by
  have hne : d.close ≠ 0 := ne_of_gt hp
  unfold sim_day_step
  dsimp only
  rw [if_pos hI, if_pos hA]
  unfold open_branch
  dsimp only
  have key : ∀ e1 e2 : ℚ, e1 = e2 →
      s.daily_equity ++ [(⟨d.date, e1, MachState.DEPLOYED⟩ : EquityRec)]
        = s.daily_equity ++ [⟨d.date, e2, MachState.DEPLOYED⟩] := by
    intro e1 e2 h
    rw [h]
  refine ⟨rfl, rfl, rfl, rfl, key _ _ ?_, rfl⟩
  rw [div_mul_cancel₀ _ hne]
  unfold open_fees_amount
  ring

/-- Witness for the C9 theorem on the scenario parameters. -/
theorem open_day_no_accrual_witness :
    ((init_state prA).machine = MachState.IDLE ∧ (619:ℚ)/40 > prA.apy_threshold
      ∧ 0 < dayA.close)
    ∧ ((sim_day_step prA (init_state prA) dayA (619/40) (619/40)).total_carry
          = (init_state prA).total_carry
      ∧ (sim_day_step prA (init_state prA) dayA (619/40) (619/40)).total_funding
          = (init_state prA).total_funding
      ∧ (sim_day_step prA (init_state prA) dayA (619/40) (619/40)).machine
          = MachState.DEPLOYED
      ∧ (sim_day_step prA (init_state prA) dayA (619/40) (619/40)).closes
          = (init_state prA).closes
      ∧ (sim_day_step prA (init_state prA) dayA (619/40) (619/40)).daily_equity
          = (init_state prA).daily_equity
            ++ [⟨dayA.date, (init_state prA).cash - open_fees_amount prA (init_state prA).cash,
                MachState.DEPLOYED⟩]
      ∧ (sim_day_step prA (init_state prA) dayA (619/40) (619/40)).events
          = (init_state prA).events
            ++ [Event.OPEN dayA.date dayA.close
                (sim_day_step prA (init_state prA) dayA (619/40) (619/40)).long_eq
                (sim_day_step prA (init_state prA) dayA (619/40) (619/40)).short_eq
                ((init_state prA).cash / 2 * prA.target_leverage)
                (open_fees_amount prA (init_state prA).cash) (619/40)]) :=
  ⟨⟨rfl, by norm_num [prA], by norm_num [dayA]⟩,
   open_day_no_accrual prA (init_state prA) dayA (619/40) (619/40) rfl
     (by norm_num [prA]) (by norm_num [dayA])⟩

theorem step_equity_len (pr : SimParams) (s : SimState) (d : Day) (raw sm : ℚ) :
    (sim_day_step pr s d raw sm).daily_equity.length = s.daily_equity.length + 1 := by
  unfold sim_day_step
  dsimp only
  split
  · split
    · simp [open_branch]
    · simp [idle_hold_branch]
  · unfold deployed_branch
    dsimp only
    split
    · simp
    · simp

theorem loop_equity_len (pr : SimParams) :
    ∀ (l : List (Day × ℚ × ℚ)) (s : SimState),
      (sim_loop pr s l).daily_equity.length = s.daily_equity.length + l.length
  | [], s => rfl
  | (d, raw, sm) :: rest, s => by
    rw [show sim_loop pr s ((d, raw, sm) :: rest)
        = sim_loop pr (sim_day_step pr s d raw sm) rest from rfl]
    rw [loop_equity_len pr rest, step_equity_len]
    simp only [List.length_cons]
    omega

theorem run_equity_len (pr : SimParams) (days : List Day) :
    (run_simulation pr days).daily_equity.length = days.length := by
  show (final_sim_state pr days).daily_equity.length = days.length
  unfold final_sim_state
  rw [loop_equity_len]
  simp [init_state, raw_apys, smoothed_apys]

/-- C3 (amended): the simulator performs no configuration validation at all;
for every parameter set — including non-positive capital and leverage ≤ 1 —
the day loop runs over the whole date range and appends exactly one
daily-equity record per day. -/
theorem no_config_validation (pr : SimParams) (days : List Day) :
    (run_simulation pr days).daily_equity.length = days.length :=
  run_equity_len pr days

/-- C3 counterexample: with capital −100 ≤ 0 and leverage 1/2 ≤ 1 the run
does not fail fast: it completes the two-day loop and produces two IDLE
daily-equity records (carrying the negative capital forward), directly
contradicting "no equity records produced". -/
theorem no_config_validation_cex :
    prC3.initial_capital ≤ 0 ∧ prC3.target_leverage ≤ 1
    ∧ (run_simulation prC3 [dayZ0, dayZ1]).daily_equity
        = [⟨0, -100, MachState.IDLE⟩, ⟨1, -100, MachState.IDLE⟩]
    ∧ (run_simulation prC3 [dayZ0, dayZ1]).events = [] := by
  refine ⟨by norm_num [prC3], by norm_num [prC3], ?_, ?_⟩ <;>
    norm_num [run_simulation, final_sim_state, raw_apys, smoothed_apys, sim_loop,
      sim_day_step, open_branch, idle_hold_branch, deployed_branch, init_state,
      compute_net_apy, prC3, dayZ0, dayZ1, GAS_COST, maxDrawdown, dd_step,
      final_price, List.range_succ, machState_ctor_ne1, machState_ctor_ne2]

theorem step_zero_fill (pr : SimParams) (s : SimState) (d : Day) (raw sm : ℚ) :
    sim_day_step pr s (zero_fill d) raw sm = sim_day_step pr s d raw sm := by
  simp [sim_day_step, open_branch, idle_hold_branch, deployed_branch, zero_fill]

theorem raw_zero_fill (days : List Day) (lev : ℚ) :
    raw_apys (days.map zero_fill) lev = raw_apys days lev := by
  induction days with
  | nil => rfl
  | cons d rest ih =>
    simp only [raw_apys, List.map_cons] at ih ⊢
    simp only [List.cons.injEq]
    exact ⟨rfl, ih⟩

theorem loop_zero_fill (pr : SimParams) :
    ∀ (days : List Day) (ps : List (ℚ × ℚ)) (s : SimState),
      sim_loop pr s ((days.map zero_fill).zip ps) = sim_loop pr s (days.zip ps)
  | [], _, _ => rfl
  | _ :: _, [], _ => rfl
  | d :: rest, (raw, sm) :: ps, s => by
    simp only [List.map_cons, List.zip_cons_cons]
    rw [show sim_loop pr s ((zero_fill d, raw, sm) :: (rest.map zero_fill).zip ps)
        = sim_loop pr (sim_day_step pr s (zero_fill d) raw sm) ((rest.map zero_fill).zip ps)
      from rfl]
    rw [show sim_loop pr s ((d, raw, sm) :: rest.zip ps)
        = sim_loop pr (sim_day_step pr s d raw sm) (rest.zip ps) from rfl]
    rw [step_zero_fill]
    exact loop_zero_fill pr rest ps _

theorem final_price_zero_fill (days : List Day) :
    final_price (days.map zero_fill) = final_price days := by
  induction days with
  | nil => rfl
  | cons d rest ih =>
    cases rest with
    | nil => rfl
    | cons e rest2 =>
      simp only [final_price, List.map_cons] at ih ⊢
      rw [List.getLast?_cons_cons, List.getLast?_cons_cons]
      simpa only [List.map_cons] using ih

theorem run_zero_fill (pr : SimParams) (days : List Day) :
    run_simulation pr (days.map zero_fill) = run_simulation pr days := by
  have hfs : final_sim_state pr (days.map zero_fill) = final_sim_state pr days := by
    unfold final_sim_state
    rw [raw_zero_fill]
    exact loop_zero_fill pr days _ _
  unfold run_simulation
  rw [hfs, final_price_zero_fill, List.length_map]

/-- C2 (amended): `run_simulation` raises no error on dates missing from the
lending/borrowing/funding lookups; it silently substitutes a zero rate for
each missing value — the whole run result is identical to the run on data
where every missing rate is replaced by an explicit zero. -/
theorem missing_rates_zero_substituted (pr : SimParams) (days : List Day) :
    run_simulation pr (days.map zero_fill) = run_simulation pr days :=
  run_zero_fill pr days

/-- C2 counterexample: a concrete two-day run whose second date is missing
from all three rate lookups completes normally — it produces a daily-equity
record for both days and its entire result coincides with the run on
explicit zero rates, so no hard error is raised. -/
theorem missing_rates_no_error_cex :
    (run_simulation prA [dayA, dayMissing]).daily_equity.length = 2
    ∧ run_simulation prA [dayA, dayMissing] = run_simulation prA [dayA, dayZero] := by
  constructor
  · exact run_equity_len prA [dayA, dayMissing]
  · have h : [dayA, dayZero] = [dayA, dayMissing].map zero_fill := rfl
    rw [h, run_zero_fill]

/-- C6: the maximum drawdown computed over a prefix of a daily equity series
never decreases as more records are appended, and it is always
non-negative. -/
theorem max_drawdown_monotone (initial : ℚ) (l l2 : List ℚ) :
    maxDrawdown initial l ≤ maxDrawdown initial (l ++ l2)
    ∧ 0 ≤ maxDrawdown initial l := by
  constructor
  · unfold maxDrawdown
    rw [List.foldl_append]
    exact dd_snd_le l2 _ _
  · exact dd_snd_le l initial 0

theorem sim_inv_snoc {s s' : SimState} {r : EquityRec}
    (h : sim_inv s)
    (heq : s'.daily_equity = s.daily_equity ++ [r])
    (h1 : r.state = MachState.IDLE → s'.machine = MachState.IDLE ∧ s'.cash = r.equity)
    (h2 : r.state = MachState.IDLE → ∀ x, s.daily_equity.getLast? = some x →
        x.state = MachState.IDLE → x.equity = r.equity)
    (h3 : s'.machine = MachState.DEPLOYED →
        r.equity = s'.long_eq + s'.short_eq ∧ r.state = MachState.DEPLOYED) :
    sim_inv s' := by
  obtain ⟨hc, hlast, -⟩ := h
  refine ⟨?_, ?_, ?_⟩
  · rw [heq, List.chain'_append]
    refine ⟨hc, List.chain'_singleton r, ?_⟩
    intro x hx y hy
    simp only [List.head?_cons, Option.mem_def, Option.some.injEq] at hy
    subst hy
    intro hxI hrI
    exact h2 hrI x (Option.mem_def.mp hx) hxI
  · intro r' hr'
    rw [heq, List.getLast?_concat] at hr'
    injection hr' with hr''
    subst hr''
    exact h1
  · intro hm
    obtain ⟨he, hst⟩ := h3 hm
    exact ⟨r, by rw [heq, List.getLast?_concat], he, hst⟩

theorem sim_inv_open_branch {pr : SimParams} {s : SimState} {d : Day} {na : ℚ}
    (h : sim_inv s) : sim_inv (open_branch pr s d na) := by
  refine sim_inv_snoc h rfl ?_ ?_ ?_
  · intro hr
    exact absurd hr (by simp)
  · intro hr
    exact absurd hr (by simp)
  · intro _
    exact ⟨rfl, rfl⟩

theorem sim_inv_idle_hold {s : SimState} {d : Day}
    (h : sim_inv s) (hm : s.machine = MachState.IDLE) :
    sim_inv (idle_hold_branch s d) := by
  refine sim_inv_snoc h rfl ?_ ?_ ?_
  · intro _
    exact ⟨hm, rfl⟩
  · intro _ x hx hxI
    exact ((h.2.1 x hx hxI).2).symm
  · intro hm'
    rw [show (idle_hold_branch s d).machine = s.machine from rfl, hm] at hm'
    exact absurd hm' (by simp)

theorem sim_inv_deployed {pr : SimParams} {s : SimState} {d : Day} {na : ℚ}
    (h : sim_inv s) (hm : s.machine = MachState.DEPLOYED) :
    sim_inv (deployed_branch pr s d na) := by
  unfold deployed_branch
  dsimp only
  split
  · refine sim_inv_snoc h rfl ?_ ?_ ?_
    · intro _
      exact ⟨rfl, rfl⟩
    · intro _ x hx hxI
      have := (h.2.1 x hx hxI).1
      rw [hm] at this
      exact absurd this (by simp)
    · intro hm'
      exact absurd hm' (by simp)
  · refine sim_inv_snoc h rfl ?_ ?_ ?_
    · intro hr
      exact absurd hr (by simp)
    · intro hr
      exact absurd hr (by simp)
    · intro _
      exact ⟨rfl, rfl⟩

theorem sim_inv_step {pr : SimParams} {s : SimState} {d : Day} {raw sm : ℚ}
    (h : sim_inv s) : sim_inv (sim_day_step pr s d raw sm) := by
  unfold sim_day_step
  dsimp only
  split
  · next hmach =>
    split
    · exact sim_inv_open_branch h
    · exact sim_inv_idle_hold h hmach
  · next hmach =>
    have hdep : s.machine = MachState.DEPLOYED := by
      cases hval : s.machine
      · exact absurd hval hmach
      · rfl
    exact sim_inv_deployed h hdep

theorem sim_inv_loop (pr : SimParams) :
    ∀ (l : List (Day × ℚ × ℚ)) (s : SimState), sim_inv s → sim_inv (sim_loop pr s l)
  | [], _, h => h
  | (_, _, _) :: rest, _, h => sim_inv_loop pr rest _ (sim_inv_step h)

theorem sim_inv_init (pr : SimParams) : sim_inv (init_state pr) := by
  refine ⟨List.chain'_nil, ?_, ?_⟩
  · intro r hr
    exact absurd hr (by simp [init_state])
  · intro hm
    exact absurd hm (by simp [init_state])

theorem sim_inv_final (pr : SimParams) (days : List Day) :
    sim_inv (final_sim_state pr days) :=
  sim_inv_loop pr _ _ (sim_inv_init pr)

/-- C8: in the daily equity series of any run, any two consecutive records
that are both in the IDLE state carry the same equity — idle capital earns
no yield and is charged no fees. -/
theorem idle_equity_constant (pr : SimParams) (days : List Day) :
    List.Chain' idle_adj (run_simulation pr days).daily_equity :=
  (sim_inv_final pr days).1

/-- C10: if the run ends still DEPLOYED, the reported final capital is the
sum of the two legs' final equities minus the final short-leg close fee
`short_contracts × final_price × fee_bps / 10000`; the event log gains no
CLOSE event in this final step, the daily-equity log is unchanged and its
last record holds the pre-fee equity, so whenever the fee is positive the
reported final capital is strictly below the last logged equity. -/
theorem final_close_fee (pr : SimParams) (days : List Day)
    (h : (final_sim_state pr days).machine = MachState.DEPLOYED) :
    (run_simulation pr days).final
        = (final_sim_state pr days).long_eq + (final_sim_state pr days).short_eq
          - (final_sim_state pr days).short_contracts * final_price days
            * pr.fee_bps / 10000
    ∧ (run_simulation pr days).events = (final_sim_state pr days).events
    ∧ (run_simulation pr days).daily_equity = (final_sim_state pr days).daily_equity
    ∧ (∃ r, (final_sim_state pr days).daily_equity.getLast? = some r
        ∧ r.equity = (final_sim_state pr days).long_eq + (final_sim_state pr days).short_eq)
    ∧ (0 < (final_sim_state pr days).short_contracts * final_price days
          * pr.fee_bps / 10000 →
        ∀ r, (final_sim_state pr days).daily_equity.getLast? = some r →
          (run_simulation pr days).final < r.equity) := by
  obtain ⟨r, hr, hre, -⟩ := (sim_inv_final pr days).2.2 h
  have hfin : (run_simulation pr days).final
      = (final_sim_state pr days).long_eq + (final_sim_state pr days).short_eq
        - (final_sim_state pr days).short_contracts * final_price days
          * pr.fee_bps / 10000 := by
    show (if (final_sim_state pr days).machine = MachState.DEPLOYED then
        (final_sim_state pr days).long_eq + (final_sim_state pr days).short_eq
          - (final_sim_state pr days).short_contracts * final_price days
            * pr.fee_bps / 10000
      else (final_sim_state pr days).cash) = _
    rw [if_pos h]
  refine ⟨hfin, rfl, rfl, ⟨r, hr, hre⟩, ?_⟩
  intro hfee r' hr'
  rw [hr] at hr'
  injection hr' with hr''
  subst hr''
  rw [hfin, hre]
  linarith

/-- Witness for the C10 theorem: a one-day run that opens on its only day
and therefore ends DEPLOYED, with a positive final close fee. -/
theorem final_close_fee_witness :
    (final_sim_state prA [dayA]).machine = MachState.DEPLOYED
    ∧ 0 < (final_sim_state prA [dayA]).short_contracts * final_price [dayA]
        * prA.fee_bps / 10000
    ∧ (final_sim_state prA [dayA]).daily_equity.getLast?
        = some ⟨0, 39881/4, MachState.DEPLOYED⟩
    ∧ (run_simulation prA [dayA]).final
        = (final_sim_state prA [dayA]).long_eq + (final_sim_state prA [dayA]).short_eq
          - (final_sim_state prA [dayA]).short_contracts * final_price [dayA]
            * prA.fee_bps / 10000
    ∧ (run_simulation prA [dayA]).events = (final_sim_state prA [dayA]).events
    ∧ (run_simulation prA [dayA]).final < (39881:ℚ)/4 :=
  have h : (final_sim_state prA [dayA]).machine = MachState.DEPLOYED := by
    norm_num [final_sim_state, raw_apys, smoothed_apys, sim_loop, sim_day_step,
      open_branch, idle_hold_branch, deployed_branch, init_state, compute_net_apy,
      prA, dayA, GAS_COST, List.range_succ, machState_ctor_ne1, machState_ctor_ne2]
  have hfee : 0 < (final_sim_state prA [dayA]).short_contracts * final_price [dayA]
      * prA.fee_bps / 10000 := by
    norm_num [final_sim_state, final_price, raw_apys, smoothed_apys, sim_loop,
      sim_day_step, open_branch, idle_hold_branch, deployed_branch, init_state,
      compute_net_apy, prA, dayA, GAS_COST, List.range_succ, machState_ctor_ne1,
      machState_ctor_ne2]
  have hlast : (final_sim_state prA [dayA]).daily_equity.getLast?
      = some ⟨0, 39881/4, MachState.DEPLOYED⟩ := by
    norm_num [final_sim_state, raw_apys, smoothed_apys, sim_loop, sim_day_step,
      open_branch, idle_hold_branch, deployed_branch, init_state, compute_net_apy,
      prA, dayA, GAS_COST, List.range_succ, machState_ctor_ne1, machState_ctor_ne2]
  ⟨h, hfee, hlast, (final_close_fee prA [dayA] h).1, (final_close_fee prA [dayA] h).2.1,
   (final_close_fee prA [dayA] h).2.2.2.2 hfee ⟨0, 39881/4, MachState.DEPLOYED⟩ hlast⟩

/-- C5 counterexample: in the deterministic scenario (capital $10,000,
leverage 3, venue fee 3.5 bps, opening fee 15 bps, entry price $100) the
fees charged at OPEN are exactly $29.75, which is not within $0.01 of the
claimed ≈ $23.75. -/
theorem open_fees_not_as_claimed_cex :
    ((run_simulation prA [dayA, dayA2]).events.map event_fees) = [119/4]
    ∧ ¬ (|(119:ℚ)/4 - 95/4| ≤ 1/100) := by
  constructor
  · norm_num [run_simulation, final_sim_state, raw_apys, smoothed_apys, sim_loop,
      sim_day_step, open_branch, idle_hold_branch, deployed_branch, init_state,
      compute_net_apy, prA, dayA, dayA2, event_fees, GAS_COST, maxDrawdown, dd_step,
      final_price, List.range_succ, machState_ctor_ne1, machState_ctor_ne2]
  · norm_num

/-- C5 (amended): in the deterministic scenario the fees charged at OPEN
equal `$15,000 × (0.0015 + 0.00035) + $2` exactly — but that expression
evaluates to $29.75, not ≈ $23.75. -/
theorem open_fees_scenario_value :
    ((run_simulation prA [dayA, dayA2]).events.map event_fees)
      = [15000 * ((15:ℚ)/10000 + 7/20000) + 2]
    ∧ 15000 * ((15:ℚ)/10000 + 7/20000) + 2 = 119/4 := by
  constructor
  · norm_num [run_simulation, final_sim_state, raw_apys, smoothed_apys, sim_loop,
      sim_day_step, open_branch, idle_hold_branch, deployed_branch, init_state,
      compute_net_apy, prA, dayA, dayA2, event_fees, GAS_COST, maxDrawdown, dd_step,
      final_price, List.range_succ, machState_ctor_ne1, machState_ctor_ne2]
  · norm_num

end Sim

namespace Cmp

theorem leg_ctor_ne1 : (Leg.LONG = Leg.SHORT) = False := by
  simp

theorem leg_ctor_ne2 : (Leg.LONG = Leg.BOTH) = False := by
  simp

theorem leg_ctor_ne3 : (Leg.SHORT = Leg.LONG) = False := by
  simp

theorem leg_ctor_ne4 : (Leg.SHORT = Leg.BOTH) = False := by
  simp

theorem leg_ctor_ne5 : (Leg.BOTH = Leg.LONG) = False := by
  simp

theorem leg_ctor_ne6 : (Leg.BOTH = Leg.SHORT) = False := by
  simp

/-- C4 (amended): under the notional-fraction penalty model the computed
penalty never exceeds the nonnegative part `max eq 0` of the leg's
pre-penalty equity — in particular it never exceeds the equity whenever that
equity is nonnegative — and the post-penalty equity is never negative. -/
theorem notional_penalty_capped (pct notional eq : ℚ) :
    (applyNotionalPenalty pct notional eq).1 ≤ max eq 0
    ∧ (0 ≤ eq → (applyNotionalPenalty pct notional eq).1 ≤ eq)
    ∧ 0 ≤ (applyNotionalPenalty pct notional eq).2 := by
  unfold applyNotionalPenalty
  refine ⟨min_le_right _ _, fun h => ?_, le_max_right _ _⟩
  calc min (notional * pct) (max eq 0) ≤ max eq 0 := min_le_right _ _
    _ = eq := max_eq_left h

/-- Witness for the amended C4 theorem at a concrete nonnegative equity. -/
theorem notional_penalty_capped_witness :
    (0:ℚ) ≤ 100 ∧ (applyNotionalPenalty (1/40) 9000 100).1 ≤ 100 :=
  ⟨by norm_num, (notional_penalty_capped (1/40) 9000 100).2.1 (by norm_num)⟩

/-- C4 counterexample: in the Drift crash scenario the long leg is liquidated
on day 1 with negative pre-penalty close-price equity; the computed
notional-fraction penalty is 0, which strictly exceeds that pre-penalty
equity, so the claim "the penalty never exceeds the pre-penalty equity of
the affected leg" is false as stated. -/
theorem notional_penalty_exceeds_equity_cex :
    liq_check VENUE_DRIFT crashPre cmpDay1 = some Leg.LONG
    ∧ crashPre.long_eq < 0
    ∧ (applyNotionalPenalty VENUE_DRIFT.liq_penalty_pct
        (crashPre.sol_qty * cmpDay1.close) crashPre.long_eq).1 = 0
    ∧ ¬ ((applyNotionalPenalty VENUE_DRIFT.liq_penalty_pct
        (crashPre.sol_qty * cmpDay1.close) crashPre.long_eq).1 ≤ crashPre.long_eq)
    ∧ (cmp_day_step cmpPr VENUE_DRIFT 6 crashS1 cmpDay1).liquidations = 1 := by
  norm_num [liq_check, crashPre, crashS1, cmp_day_step, cmp_open, accrue,
    derive_equity, apply_liq_penalty, reopen, rebalance_branch, eff_lev,
    applyNotionalPenalty, applyEquityPenalty, cmpPr, VENUE_DRIFT, cmpDay0, cmpDay1,
    GAS_COST, min_def, max_def, leg_ctor_ne1, leg_ctor_ne2, leg_ctor_ne3,
    leg_ctor_ne4, leg_ctor_ne5, leg_ctor_ne6]

/-- C7: an executed capital rebalance leaves `sol_qty`, `short_contracts` and
`short_entry` unchanged, re-equalizes the two legs' equities exactly (each
becomes half of the old total minus half the bridge fee), decreases total
equity by exactly the bridge fee, adds that fee to the fee total; and the
transfer is skipped entirely (state unchanged) whenever the required amount
is at most $5. -/
theorem capital_rebalance_frame (v : Venue) (trigger : ℚ) (s : CmpState) (d : CmpDay)
    (hL : s.long_eq = s.sol_qty * d.close - s.usdc_debt)
    (hS : s.short_eq = s.short_margin + s.short_contracts * (s.short_entry - d.close)) :
    (eff_lev (s.sol_qty * d.close) s.long_eq > trigger
        ∨ eff_lev (s.short_contracts * d.close) s.short_eq > trigger →
      |s.long_eq - (s.long_eq + s.short_eq) / 2| > 5 →
        (rebalance_branch v trigger s d).sol_qty = s.sol_qty
        ∧ (rebalance_branch v trigger s d).short_contracts = s.short_contracts
        ∧ (rebalance_branch v trigger s d).short_entry = s.short_entry
        ∧ (rebalance_branch v trigger s d).long_eq
            = (s.long_eq + s.short_eq - v.bridge_cost) / 2
        ∧ (rebalance_branch v trigger s d).short_eq
            = (s.long_eq + s.short_eq - v.bridge_cost) / 2
        ∧ (rebalance_branch v trigger s d).long_eq + (rebalance_branch v trigger s d).short_eq
            = s.long_eq + s.short_eq - v.bridge_cost
        ∧ (rebalance_branch v trigger s d).total_fees = s.total_fees + v.bridge_cost)
    ∧ (|s.long_eq - (s.long_eq + s.short_eq) / 2| ≤ 5 →
        rebalance_branch v trigger s d = s) := by
  constructor
  · intro h1 h2
    unfold rebalance_branch
    rw [if_pos h1, if_pos h2]
    by_cases hc : s.long_eq < (s.long_eq + s.short_eq) / 2
    · rw [if_pos hc]
      refine ⟨rfl, rfl, rfl, ?_, ?_, ?_, rfl⟩ <;> · dsimp only; linarith
    · rw [if_neg hc]
      refine ⟨rfl, rfl, rfl, ?_, ?_, ?_, rfl⟩ <;> · dsimp only; linarith
  · intro h2
    unfold rebalance_branch
    by_cases h1 : eff_lev (s.sol_qty * d.close) s.long_eq > trigger
        ∨ eff_lev (s.short_contracts * d.close) s.short_eq > trigger
    · rw [if_pos h1, if_neg (not_lt.mpr h2)]
    · rw [if_neg h1]

/-- Witness for the C7 theorem at a concrete triggered state. -/
theorem capital_rebalance_frame_witness :
    (sW.long_eq = sW.sol_qty * dW.close - sW.usdc_debt)
    ∧ (sW.short_eq = sW.short_margin + sW.short_contracts * (sW.short_entry - dW.close))
    ∧ (eff_lev (sW.sol_qty * dW.close) sW.long_eq > 6
        ∨ eff_lev (sW.short_contracts * dW.close) sW.short_eq > 6)
    ∧ |sW.long_eq - (sW.long_eq + sW.short_eq) / 2| > 5
    ∧ ((rebalance_branch VENUE_HL 6 sW dW).sol_qty = sW.sol_qty
        ∧ (rebalance_branch VENUE_HL 6 sW dW).short_contracts = sW.short_contracts
        ∧ (rebalance_branch VENUE_HL 6 sW dW).short_entry = sW.short_entry
        ∧ (rebalance_branch VENUE_HL 6 sW dW).long_eq
            = (sW.long_eq + sW.short_eq - VENUE_HL.bridge_cost) / 2
        ∧ (rebalance_branch VENUE_HL 6 sW dW).short_eq
            = (sW.long_eq + sW.short_eq - VENUE_HL.bridge_cost) / 2
        ∧ (rebalance_branch VENUE_HL 6 sW dW).long_eq + (rebalance_branch VENUE_HL 6 sW dW).short_eq
            = sW.long_eq + sW.short_eq - VENUE_HL.bridge_cost
        ∧ (rebalance_branch VENUE_HL 6 sW dW).total_fees
            = sW.total_fees + VENUE_HL.bridge_cost)
    ∧ |sB.long_eq - (sB.long_eq + sB.short_eq) / 2| ≤ 5
    ∧ rebalance_branch VENUE_HL 6 sB dW = sB :=
  ⟨by norm_num [sW, dW], by norm_num [sW, dW],
   by norm_num [sW, dW, eff_lev, max_def], by norm_num [sW],
   (capital_rebalance_frame VENUE_HL 6 sW dW (by norm_num [sW, dW])
       (by norm_num [sW, dW])).1
     (by norm_num [sW, dW, eff_lev, max_def]) (by norm_num [sW]),
   by norm_num [sB],
   (capital_rebalance_frame VENUE_HL 6 sB dW (by norm_num [sB, dW])
       (by norm_num [sB, dW])).2 (by norm_num [sB])⟩

/-- The state handed to the rebalance branch by the day step always carries
derived equities consistent with its position variables, as required by the
hypotheses of the capital-rebalance theorem. -/
theorem derive_equity_consistent (s : CmpState) (d : CmpDay) :
    (derive_equity s d).long_eq
        = (derive_equity s d).sol_qty * d.close - (derive_equity s d).usdc_debt
    ∧ (derive_equity s d).short_eq
        = (derive_equity s d).short_margin
          + (derive_equity s d).short_contracts
            * ((derive_equity s d).short_entry - d.close) :=
  ⟨rfl, rfl⟩

end Cmp

end Basisfeasibility
